import Mathlib

/-!
Shallow embedding of the Inbox Pilot API core (apps/api/main.py, apps/api/models.py):
ticket update (diff + audit), message creation (+ audit), JWT verification wrapper,
actor resolution, and the JWKS key cache contract.

Conventions of the embedding:
* Python `str` is Lean `String`; Python slicing `s[:n]` is `pyTake s n` (first n chars).
* Python `None`-able values are `Option`; Python truthiness of a string-or-None
  (`if x:`) is `truthy : Option String → Bool` (false for `None` and `""`).
* `datetime` is an abstract type `DT` supplied together with its `fromisoformat` /
  `isoformat` operations in a `DTOps` record (the library functions are external
  to the repository; all proofs hold for any such record, and concrete runs use
  a simple string-based instance).
* The SQLAlchemy session is modelled by explicit state passing: a handler returns
  the list of committed database snapshots, one per `db.commit()` it executes, in
  order.  An exception (`HTTPException`) aborts the handler before any further
  commit; the session is closed and rolled back, so an error result carries no
  commits and the persisted database is unchanged.
* `json.dumps(meta)` keeps `meta` structurally (an inductive `Meta`); the audit
  rows' `created_at` server defaults are elided, as no claim concerns them.
-/

/-- The datetime operations used by the code (`datetime.fromisoformat`,
`datetime.isoformat`), abstract because they come from the Python standard
library, not the repository. -/
structure DTOps (DT : Type) where
  fromiso : String → Option DT
  iso : DT → String

/-- Embeds `HTTPException(status_code=..., detail=...)`. -/
structure HTTPError where
  status_code : Nat
  detail : String
  deriving DecidableEq, Repr

/-- The decoded JWT payload as used by the handlers: `user.get("email")`,
`user.get("sub")` (absent key modelled as `none`). -/
structure User where
  email : Option String
  sub : Option String
  deriving DecidableEq, Repr

/-- Python truthiness of an optional string: `None` and `""` are falsy. -/
def truthy (o : Option String) : Bool :=
  o.getD "" ≠ ""

/-- Python slicing `s[:n]`: the first `n` characters of `s`. -/
def pyTake (s : String) (n : Nat) : String :=
  String.mk (s.data.take n)

/-- Python slicing `s[n:]`: all but the first `n` characters of `s`. -/
def pyDrop (s : String) (n : Nat) : String :=
  String.mk (s.data.drop n)

/-- Python `str.strip()`: removes leading and trailing whitespace. -/
def pyStrip (s : String) : String :=
  String.mk
    (((s.data.dropWhile Char.isWhitespace).reverse.dropWhile
        Char.isWhitespace).reverse)

/-- Python `str.startswith(p)`. -/
def pyStartsWith (s p : String) : Bool :=
  p.data.isPrefixOf s.data

/-- Worker for `pyReplace`, with enough fuel to scan the whole list. -/
def pyReplaceGo (old new : List Char) : Nat → List Char → List Char
  | _, [] => []
  | 0, s => s
  | fuel + 1, c :: rest =>
    if old.isPrefixOf (c :: rest) then
      new ++ pyReplaceGo old new fuel (rest.drop (old.length - 1))
    else
      c :: pyReplaceGo old new fuel rest

/-- Python `str.replace(old, new)` for non-empty `old`: replaces every
occurrence, scanning left to right. -/
def pyReplace (s old new : String) : String :=
  if old.data = [] then s
  else String.mk (pyReplaceGo old.data new.data s.data.length s.data)

/-- Embeds `TicketModel` (models.py): the mutable ticket row.  `created_at` is immutable
and kept as its ISO rendering. -/
structure Ticket (DT : Type) where
  id : Int
  subject : String
  status : String
  priority : String
  category : String
  assignee : Option String
  due_at : Option DT
  created_at : String
  deriving DecidableEq, Repr

/-- Embeds `TicketUpdate` (main.py): every field optional; `due_at` is an ISO string,
`""` clears. -/
structure TicketUpdate where
  status : Option String := none
  priority : Option String := none
  category : Option String := none
  assignee : Option String := none
  due_at : Option String := none
  deriving DecidableEq, Repr

/-- Embeds `TicketOut` (main.py). -/
structure TicketOut where
  id : Int
  subject : String
  status : String
  priority : String
  category : String
  assignee : Option String
  due_at : Option String
  created_at : String
  deriving DecidableEq, Repr

/-- Embeds `MessageCreate` (main.py). -/
structure MessageCreate where
  body : String
  sender_type : String := "customer"
  deriving DecidableEq, Repr

/-- Embeds `MessageModel` (models.py); `created_at` elided. -/
structure MessageRow where
  id : Int
  ticket_id : Int
  sender_type : String
  body : String
  deriving DecidableEq, Repr

/-- One entry of the `changed_fields` dict: `{"from": ..., "to": ...}`.  Both
sides are optional strings because `assignee`/`due_at` entries may be `None`. -/
structure Change where
  src : Option String
  dst : Option String
  deriving DecidableEq, Repr

/-- The `before` snapshot taken by `update_ticket` (lines 340-346). -/
structure Before where
  status : String
  priority : String
  category : String
  assignee : Option String
  due_at : Option String
  deriving DecidableEq, Repr

/-- The `meta` payloads passed to `log_event`, kept structurally in place of
their `json.dumps` rendering. -/
inductive Meta where
  | created (subject priority category : String)
  | updated (changed : List (String × Change)) (before : Before)
  | messageAdded (sender_type body_preview : String)
  deriving DecidableEq, Repr

/-- Embeds `AuditLogModel` (models.py); `created_at` elided. -/
structure AuditRow where
  ticket_id : Int
  actor : String
  action : String
  meta : Option Meta
  deriving DecidableEq, Repr

/-- The relational store reachable through the session: tickets, messages and
audit rows, plus the id the store will assign to the next inserted message. -/
structure DB (DT : Type) where
  tickets : List (Ticket DT)
  messages : List MessageRow
  audit : List AuditRow
  nextMessageId : Int
  deriving DecidableEq, Repr

/-- Embeds `db.get(TicketModel, ticket_id)`. -/
def dbGet {DT : Type} (db : DB DT) (ticket_id : Int) : Option (Ticket DT) :=
  db.tickets.find? (fun t => t.id == ticket_id)

/-- Committing the mutated ORM ticket: the row with its primary key is
replaced by the in-memory object. -/
def dbSetTicket {DT : Type} (db : DB DT) (t : Ticket DT) : DB DT :=
  { db with tickets := db.tickets.map (fun u => if u.id == t.id then t else u) }

/-- Embeds `ALLOWED_PRIORITY` (main.py line 25). -/
def ALLOWED_PRIORITY : List String := ["low", "medium", "high"]

/-- Embeds `ALLOWED_CATEGORY` (main.py line 26). -/
def ALLOWED_CATEGORY : List String := ["billing", "login", "refund", "other"]

/-- Embeds `ALLOWED_STATUS` (main.py line 27). -/
def ALLOWED_STATUS : List String := ["open", "closed"]

/-- Embeds `ALLOWED_SENDER` (main.py line 28). -/
def ALLOWED_SENDER : List String := ["customer", "agent", "system"]

/-- Embeds `actor_from_user` (main.py lines 104-109): prefer a truthy `email` claim,
then a truthy `sub` claim, else `"unknown"`. -/
def actor_from_user (user : User) : String :=
  if truthy user.email then
    "agent:" ++ user.email.getD ""
  else
    let sub := if truthy user.sub then user.sub.getD "" else "unknown"
    "agent:" ++ sub

/-- Embeds `log_event` (main.py lines 186-194): builds the audit row that is added to
the transaction buffer. -/
def log_event (ticket_id : Int) (actor action : String) (meta : Option Meta) :
    AuditRow :=
  { ticket_id := ticket_id, actor := actor, action := action, meta := meta }

/-- Embeds `ticket_to_out` (main.py lines 173-183). -/
def ticket_to_out {DT : Type} (ops : DTOps DT) (t : Ticket DT) : TicketOut :=
  { id := t.id
    subject := t.subject
    status := t.status
    priority := t.priority
    category := t.category
    assignee := t.assignee
    due_at := t.due_at.map ops.iso
    created_at := t.created_at }

/-- The `before` dict of `update_ticket` (main.py lines 340-346). -/
def beforeSnapshot {DT : Type} (ops : DTOps DT) (t : Ticket DT) : Before :=
  { status := t.status
    priority := t.priority
    category := t.category
    assignee := t.assignee
    due_at := t.due_at.map ops.iso }

/-- Embeds `update_ticket`, status block (main.py lines 350-355). -/
def applyStatus {DT : Type} (payload : TicketUpdate) (t : Ticket DT)
    (cf : List (String × Change)) :
    Except HTTPError (Ticket DT × List (String × Change)) :=
  match payload.status with
  | none => .ok (t, cf)
  | some s =>
    if s ∉ ALLOWED_STATUS then
      .error ⟨400, "Invalid status. Use open or closed."⟩
    else if s ≠ t.status then
      .ok ({ t with status := s }, cf ++ [("status", ⟨some t.status, some s⟩)])
    else
      .ok (t, cf)

/-- Embeds `update_ticket`, priority block (main.py lines 357-362). -/
def applyPriority {DT : Type} (payload : TicketUpdate) (t : Ticket DT)
    (cf : List (String × Change)) :
    Except HTTPError (Ticket DT × List (String × Change)) :=
  match payload.priority with
  | none => .ok (t, cf)
  | some s =>
    if s ∉ ALLOWED_PRIORITY then
      .error ⟨400, "Invalid priority. Use low, medium, or high."⟩
    else if s ≠ t.priority then
      .ok ({ t with priority := s }, cf ++ [("priority", ⟨some t.priority, some s⟩)])
    else
      .ok (t, cf)

/-- Embeds `update_ticket`, category block (main.py lines 364-369). -/
def applyCategory {DT : Type} (payload : TicketUpdate) (t : Ticket DT)
    (cf : List (String × Change)) :
    Except HTTPError (Ticket DT × List (String × Change)) :=
  match payload.category with
  | none => .ok (t, cf)
  | some s =>
    if s ∉ ALLOWED_CATEGORY then
      .error ⟨400, "Invalid category. Use billing, login, refund, or other."⟩
    else if s ≠ t.category then
      .ok ({ t with category := s }, cf ++ [("category", ⟨some t.category, some s⟩)])
    else
      .ok (t, cf)

/-- Embeds `update_ticket`, assignee block (main.py lines 371-376): strip, empty
clears to `None`, compare, mutate. -/
def applyAssignee {DT : Type} (payload : TicketUpdate) (t : Ticket DT)
    (cf : List (String × Change)) :
    Except HTTPError (Ticket DT × List (String × Change)) :=
  match payload.assignee with
  | none => .ok (t, cf)
  | some a =>
    let cleaned := pyStrip a
    let new_assignee : Option String := if cleaned ≠ "" then some cleaned else none
    if new_assignee ≠ t.assignee then
      .ok ({ t with assignee := new_assignee },
           cf ++ [("assignee", ⟨t.assignee, new_assignee⟩)])
    else
      .ok (t, cf)

/-- Embeds `update_ticket`, due_at comparison (main.py lines 389-393): the rendered
ISO strings of the old and proposed timestamps are compared; a difference
records the diff entry and mutates the field. -/
def dueCompare {DT : Type} (ops : DTOps DT) (t : Ticket DT)
    (cf : List (String × Change)) (new_due : Option DT) :
    Except HTTPError (Ticket DT × List (String × Change)) :=
  let old_due := t.due_at.map ops.iso
  let new_due_str := new_due.map ops.iso
  if new_due_str ≠ old_due then
    .ok ({ t with due_at := new_due }, cf ++ [("due_at", ⟨old_due, new_due_str⟩)])
  else
    .ok (t, cf)

/-- Embeds `update_ticket`, due_at block (main.py lines 378-393): `""` clears,
otherwise `datetime.fromisoformat` after replacing `"Z"`; a parse failure is
a 400 error. -/
def applyDueAt {DT : Type} (ops : DTOps DT) (payload : TicketUpdate)
    (t : Ticket DT) (cf : List (String × Change)) :
    Except HTTPError (Ticket DT × List (String × Change)) :=
  match payload.due_at with
  | none => .ok (t, cf)
  | some d =>
    if pyStrip d = "" then
      dueCompare ops t cf none
    else
      match ops.fromiso (pyReplace d "Z" "+00:00") with
      | some nd => dueCompare ops t cf (some nd)
      | none =>
        .error ⟨400,
          "due_at must be ISO format like 2026-01-20T10:00:00+00:00 (or empty string to clear)"⟩

/-- The field blocks of `update_ticket` in program order (main.py lines
348-393), threading the in-memory ticket and `changed_fields`. -/
def applyFields {DT : Type} (ops : DTOps DT) (payload : TicketUpdate)
    (t : Ticket DT) :
    Except HTTPError (Ticket DT × List (String × Change)) :=
  match applyStatus payload t [] with
  | .error e => .error e
  | .ok (t1, cf1) =>
    match applyPriority payload t1 cf1 with
    | .error e => .error e
    | .ok (t2, cf2) =>
      match applyCategory payload t2 cf2 with
      | .error e => .error e
      | .ok (t3, cf3) =>
        match applyAssignee payload t3 cf3 with
        | .error e => .error e
        | .ok (t4, cf4) => applyDueAt ops payload t4 cf4

/-- Embeds `update_ticket` (main.py lines 329-410).  On success returns the response
body and the list of committed snapshots, one per `db.commit()`: the empty-diff
early return commits nothing; otherwise the first commit persists the ticket
mutation and the second additionally persists the audit row. -/
def update_ticket {DT : Type} (ops : DTOps DT) (db : DB DT) (ticket_id : Int)
    (payload : TicketUpdate) (user : User) :
    Except HTTPError (TicketOut × List (DB DT)) :=
  match dbGet db ticket_id with
  | none => .error ⟨404, "Ticket not found"⟩
  | some t0 =>
    let before := beforeSnapshot ops t0
    match applyFields ops payload t0 with
    | .error e => .error e
    | .ok (t, changed_fields) =>
      if changed_fields = [] then
        .ok (ticket_to_out ops t, [])
      else
        let db1 := dbSetTicket db t
        let row := log_event t.id (actor_from_user user) "ticket.updated"
          (some (.updated changed_fields before))
        let db2 := { db1 with audit := db1.audit ++ [row] }
        .ok (ticket_to_out ops t, [db1, db2])

/-- Embeds `add_message` (main.py lines 416-454): 404 check, sender validation, insert
(first commit), audit row with an 80-character body preview (second commit). -/
def add_message {DT : Type} (db : DB DT) (ticket_id : Int)
    (payload : MessageCreate) (user : User) :
    Except HTTPError (MessageRow × List (DB DT)) :=
  match dbGet db ticket_id with
  | none => .error ⟨404, "Ticket not found"⟩
  | some t =>
    if payload.sender_type ∉ ALLOWED_SENDER then
      .error ⟨400, "sender_type must be customer, agent, or system"⟩
    else
      let m : MessageRow :=
        { id := db.nextMessageId
          ticket_id := ticket_id
          sender_type := payload.sender_type
          body := pyStrip payload.body }
      let db1 := { db with
        messages := db.messages ++ [m]
        nextMessageId := db.nextMessageId + 1 }
      let row := log_event t.id (actor_from_user user) "message.added"
        (some (.messageAdded m.sender_type (if m.body ≠ "" then pyTake m.body 80 else "")))
      let db2 := { db1 with audit := db1.audit ++ [row] }
      .ok (m, [db1, db2])

/-- The database state persisted once the request has finished: the last
committed snapshot, or the original database when nothing was committed (the
session rollback on error discards uncommitted work). -/
def finalDB {DT α : Type} (db : DB DT) (r : Except HTTPError (α × List (DB DT))) :
    DB DT :=
  match r with
  | .ok (_, commits) => commits.getLastD db
  | .error _ => db

/-- The commits a handler executed (none when it raised). -/
def commitsOf {DT α : Type} (r : Except HTTPError (α × List (DB DT))) :
    List (DB DT) :=
  match r with
  | .ok (_, commits) => commits
  | .error _ => []

/-! ## Token verification (main.py lines 55-101)

`jwt.get_unverified_header`, `PyJWKClient.get_signing_key_from_jwt` and
`jwt.decode` are library calls on the extracted token; they are modelled as
oracles bundled in a `TokenEnv`.  A raised Python exception is an `.error`
carrying `str(e)`; `jwt.decode` can additionally raise
`ExpiredSignatureError`, kept as its own outcome because the code handles it
separately. -/

/-- The unverified JWT header as used by the code: only `alg` is read
(`unverified.get("alg")`, absent key is `none`). -/
structure JwtHeader where
  alg : Option String
  deriving DecidableEq, Repr

/-- Outcome of `jwt.decode(token, key, algorithms=[alg], issuer=..., ...)`:
success with a payload, `ExpiredSignatureError`, or any other exception with
its message (bad signature, wrong issuer, ...). -/
inductive DecodeOutcome where
  | ok (payload : User)
  | expiredSignature
  | exn (msg : String)
  deriving DecidableEq, Repr

/-- The library calls made by `_verify_supabase_jwt` on one token:
`get_unverified_header`, the JWKS signing-key resolution, and `decode`
applied to the resolved key and the header-declared algorithm. -/
structure TokenEnv where
  unverified_header : Except String JwtHeader
  signing_key : Except String String
  decode : String → String → DecodeOutcome

/-- Embeds `_verify_supabase_jwt` (main.py lines 55-84): header parse, `alg`
truthiness check, key resolution, decode; `ExpiredSignatureError` maps to
`"Auth token expired"`, any other exception to `"Invalid auth token: " ++ msg`. -/
def verify_supabase_jwt (env : TokenEnv) : Except HTTPError User :=
  match env.unverified_header with
  | .error m => .error ⟨401, "Invalid auth token: " ++ m⟩
  | .ok hdr =>
    if ¬ truthy hdr.alg then
      .error ⟨401, "Invalid auth token (missing alg)"⟩
    else
      match env.signing_key with
      | .error m => .error ⟨401, "Invalid auth token: " ++ m⟩
      | .ok key =>
        match env.decode key (hdr.alg.getD "") with
        | .ok payload => .ok payload
        | .expiredSignature => .error ⟨401, "Auth token expired"⟩
        | .exn m => .error ⟨401, "Invalid auth token: " ++ m⟩

/-- Embeds `get_current_user` (main.py lines 87-101): header presence, `Bearer `
format, non-empty token, then verification.  Since the header starts with
`"Bearer "`, `authorization.split(" ", 1)[1]` is `authorization.drop 7`. -/
def get_current_user (authorization : Option String) (env : TokenEnv) :
    Except HTTPError User :=
  if ¬ truthy authorization then
    .error ⟨401, "Missing Authorization header"⟩
  else if ¬ pyStartsWith (authorization.getD "") "Bearer " then
    .error ⟨401, "Bad Authorization format (expected Bearer token)"⟩
  else if pyStrip (pyDrop (authorization.getD "") 7) = "" then
    .error ⟨401, "Missing token after Bearer"⟩
  else
    verify_supabase_jwt env

/-! ## Key-set cache

Modelled from the spec: the key cache lives in the library object
`PyJWKClient` (main.py line 52), whose implementation is not part of src/;
`resolve_key` below follows spec section 4.1 word for word (fresh-hit with no
network access, invalidate-then-refetch-once on miss/empty/stale, wholesale
replacement, `KeyNotFound` when still absent, `KeyFetchFailed` leaving the
cache empty in the forced-refetch case). -/

/-- Modelled from the spec: the process-wide cached key collection and its
fetch timestamp (seconds); empty at startup. -/
structure KeyCache where
  entry : Option (List String × Nat)
  deriving DecidableEq, Repr

/-- Modelled from the spec: the 10-minute TTL, in seconds. -/
def JWKS_TTL : Nat := 600

/-- Modelled from the spec: lookup failures of the key cache. -/
inductive KeyErr where
  | KeyNotFound
  | KeyFetchFailed
  deriving DecidableEq, Repr

/-- Modelled from the spec: result of one `resolve_key` call — the outcome,
the cache afterwards, and how many network fetches were performed. -/
structure ResolveOutcome where
  result : Except KeyErr String
  cache : KeyCache
  fetches : Nat
  deriving Repr

/-- Modelled from the spec: the cache answers locally iff it is populated,
younger than the TTL, and holds the requested key id. -/
def cacheHit (now : Nat) (c : KeyCache) (kid : String) : Bool :=
  match c.entry with
  | some (ks, fetched) => decide (now - fetched < JWKS_TTL) && ks.contains kid
  | none => false

/-- Modelled from the spec: `resolve_key(key_id)` per section 4.1.  `fetch` is
the network's answer were a fetch performed (`none` = fetch failure). -/
def resolve_key (fetch : Option (List String)) (now : Nat) (c : KeyCache)
    (kid : String) : ResolveOutcome :=
  if cacheHit now c kid then
    ⟨.ok kid, c, 0⟩
  else
    match fetch with
    | none => ⟨.error .KeyFetchFailed, ⟨none⟩, 1⟩
    | some ks =>
      if ks.contains kid then ⟨.ok kid, ⟨some (ks, now)⟩, 1⟩
      else ⟨.error .KeyNotFound, ⟨some (ks, now)⟩, 1⟩

/-! ## Concrete instances used by counterexamples and witnesses -/

/-- A concrete datetime instance for runs: timestamps are their (assumed
canonical, non-empty) ISO strings. -/
def strOps : DTOps String :=
  { fromiso := fun s => if s ≠ "" then some s else none
    iso := id }

/-- A concrete ticket in its creation state. -/
def tick0 : Ticket String :=
  { id := 1
    subject := "Payment failed"
    status := "open"
    priority := "medium"
    category := "other"
    assignee := none
    due_at := none
    created_at := "2026-01-01T00:00:00+00:00" }

/-- A concrete store holding just `tick0` and no audit rows. -/
def db0 : DB String :=
  { tickets := [tick0], messages := [], audit := [], nextMessageId := 1 }

/-- A concrete verified user. -/
def u1 : User := { email := some "sam@example.com", sub := some "uid-1" }

/-- A PATCH payload closing the ticket. -/
def payClose : TicketUpdate := { status := some "closed" }

/-- A PATCH payload with a valid status change listed before an invalid
priority. -/
def payBadPriority : TicketUpdate :=
  { status := some "closed", priority := some "urgent" }

/-- A token whose unverified header declares `HS256` (a symmetric algorithm,
not used by the issuer) and which the library decode accepts. -/
def envHS : TokenEnv :=
  { unverified_header := .ok ⟨some "HS256"⟩
    signing_key := .ok "jwk-public-key"
    decode := fun _ _ => .ok u1 }

/-- A token for which the library decode raises `ExpiredSignatureError`. -/
def envExpired : TokenEnv :=
  { unverified_header := .ok ⟨some "ES256"⟩
    signing_key := .ok "jwk-public-key"
    decode := fun _ _ => .expiredSignature }

/-! ## Helper lemmas -/

theorem pyTake_length (s : String) (n : Nat) :
    (pyTake s n).length = min n s.length := by
  rw [pyTake, String.length_mk, List.length_take]
  rfl

theorem pyTake_ne_of_lt (s : String) (h : 80 < s.length) :
    pyTake s 80 ≠ s := by
  intro hEq
  have hlen := congrArg String.length hEq
  rw [pyTake_length, Nat.min_eq_left (Nat.le_of_lt h)] at hlen
  omega

theorem invalid_detail_head (m : String) :
    ("Invalid auth token: " ++ m).data.head? = some 'I' := rfl

theorem invalid_detail_ne (m s : String) (hs : s.data.head? ≠ some 'I') :
    "Invalid auth token: " ++ m ≠ s := by
  intro hEq
  exact hs (hEq ▸ invalid_detail_head m)

/-! ### Field-block lemmas for `update_ticket` -/

theorem applyStatus_ok {DT : Type} {payload : TicketUpdate} {t t' : Ticket DT}
    {cf cf' : List (String × Change)}
    (h : applyStatus payload t cf = .ok (t', cf')) :
    (t'.id = t.id ∧ t'.priority = t.priority ∧ t'.category = t.category ∧
      t'.assignee = t.assignee ∧ t'.due_at = t.due_at) ∧
    (payload.status = none → t'.status = t.status) ∧
    (∀ s, payload.status = some s → t'.status = s ∧ s ∈ ALLOWED_STATUS) := by
  unfold applyStatus at h
  split at h
  next hps =>
    simp only [Except.ok.injEq, Prod.mk.injEq] at h
    obtain ⟨ht, hcf⟩ := h
    subst ht
    subst hcf
    simp [hps]
  next s hps =>
    split at h
    · exact absurd h (by simp)
    next hmem =>
      split at h
      next hne =>
        simp only [Except.ok.injEq, Prod.mk.injEq] at h
        obtain ⟨ht, hcf⟩ := h
        subst ht
        subst hcf
        refine ⟨⟨rfl, rfl, rfl, rfl, rfl⟩, ?_, ?_⟩
        · intro h0
          rw [hps] at h0
          cases h0
        · intro s0 hs0
          rw [hps] at hs0
          injection hs0 with hs0
          subst hs0
          exact ⟨rfl, not_not.mp hmem⟩
      next hne =>
        simp only [Except.ok.injEq, Prod.mk.injEq] at h
        obtain ⟨ht, hcf⟩ := h
        subst ht
        subst hcf
        refine ⟨⟨rfl, rfl, rfl, rfl, rfl⟩, fun _ => rfl, ?_⟩
        intro s0 hs0
        rw [hps] at hs0
        injection hs0 with hs0
        subst hs0
        exact ⟨(not_not.mp hne).symm, not_not.mp hmem⟩

theorem applyPriority_ok {DT : Type} {payload : TicketUpdate} {t t' : Ticket DT}
    {cf cf' : List (String × Change)}
    (h : applyPriority payload t cf = .ok (t', cf')) :
    (t'.id = t.id ∧ t'.status = t.status ∧ t'.category = t.category ∧
      t'.assignee = t.assignee ∧ t'.due_at = t.due_at) ∧
    (payload.priority = none → t'.priority = t.priority) ∧
    (∀ s, payload.priority = some s → t'.priority = s ∧ s ∈ ALLOWED_PRIORITY) := by
  unfold applyPriority at h
  split at h
  next hps =>
    simp only [Except.ok.injEq, Prod.mk.injEq] at h
    obtain ⟨ht, hcf⟩ := h
    subst ht
    subst hcf
    simp [hps]
  next s hps =>
    split at h
    · exact absurd h (by simp)
    next hmem =>
      split at h
      next hne =>
        simp only [Except.ok.injEq, Prod.mk.injEq] at h
        obtain ⟨ht, hcf⟩ := h
        subst ht
        subst hcf
        refine ⟨⟨rfl, rfl, rfl, rfl, rfl⟩, ?_, ?_⟩
        · intro h0
          rw [hps] at h0
          cases h0
        · intro s0 hs0
          rw [hps] at hs0
          injection hs0 with hs0
          subst hs0
          exact ⟨rfl, not_not.mp hmem⟩
      next hne =>
        simp only [Except.ok.injEq, Prod.mk.injEq] at h
        obtain ⟨ht, hcf⟩ := h
        subst ht
        subst hcf
        refine ⟨⟨rfl, rfl, rfl, rfl, rfl⟩, fun _ => rfl, ?_⟩
        intro s0 hs0
        rw [hps] at hs0
        injection hs0 with hs0
        subst hs0
        exact ⟨(not_not.mp hne).symm, not_not.mp hmem⟩

theorem applyCategory_ok {DT : Type} {payload : TicketUpdate} {t t' : Ticket DT}
    {cf cf' : List (String × Change)}
    (h : applyCategory payload t cf = .ok (t', cf')) :
    (t'.id = t.id ∧ t'.status = t.status ∧ t'.priority = t.priority ∧
      t'.assignee = t.assignee ∧ t'.due_at = t.due_at) ∧
    (payload.category = none → t'.category = t.category) ∧
    (∀ s, payload.category = some s → t'.category = s ∧ s ∈ ALLOWED_CATEGORY) := by
  unfold applyCategory at h
  split at h
  next hps =>
    simp only [Except.ok.injEq, Prod.mk.injEq] at h
    obtain ⟨ht, hcf⟩ := h
    subst ht
    subst hcf
    simp [hps]
  next s hps =>
    split at h
    · exact absurd h (by simp)
    next hmem =>
      split at h
      next hne =>
        simp only [Except.ok.injEq, Prod.mk.injEq] at h
        obtain ⟨ht, hcf⟩ := h
        subst ht
        subst hcf
        refine ⟨⟨rfl, rfl, rfl, rfl, rfl⟩, ?_, ?_⟩
        · intro h0
          rw [hps] at h0
          cases h0
        · intro s0 hs0
          rw [hps] at hs0
          injection hs0 with hs0
          subst hs0
          exact ⟨rfl, not_not.mp hmem⟩
      next hne =>
        simp only [Except.ok.injEq, Prod.mk.injEq] at h
        obtain ⟨ht, hcf⟩ := h
        subst ht
        subst hcf
        refine ⟨⟨rfl, rfl, rfl, rfl, rfl⟩, fun _ => rfl, ?_⟩
        intro s0 hs0
        rw [hps] at hs0
        injection hs0 with hs0
        subst hs0
        exact ⟨(not_not.mp hne).symm, not_not.mp hmem⟩

theorem applyAssignee_ok {DT : Type} {payload : TicketUpdate} {t t' : Ticket DT}
    {cf cf' : List (String × Change)}
    (h : applyAssignee payload t cf = .ok (t', cf')) :
    (t'.id = t.id ∧ t'.status = t.status ∧ t'.priority = t.priority ∧
      t'.category = t.category ∧ t'.due_at = t.due_at) ∧
    (payload.assignee = none → t'.assignee = t.assignee) ∧
    (∀ a, payload.assignee = some a →
      t'.assignee = (if pyStrip a ≠ "" then some (pyStrip a) else none)) := by
  unfold applyAssignee at h
  split at h
  next hpa =>
    simp only [Except.ok.injEq, Prod.mk.injEq] at h
    obtain ⟨ht, hcf⟩ := h
    subst ht
    subst hcf
    simp [hpa]
  next a hpa =>
    dsimp only at h
    split at h
    next hcl =>
      split at h
      next hne2 =>
        simp only [Except.ok.injEq, Prod.mk.injEq] at h
        obtain ⟨ht, hcf⟩ := h
        subst ht
        subst hcf
        refine ⟨⟨rfl, rfl, rfl, rfl, rfl⟩, ?_, ?_⟩
        · intro h0
          rw [hpa] at h0
          cases h0
        · intro a0 ha0
          rw [hpa] at ha0
          injection ha0 with ha0
          subst ha0
          rw [if_pos hcl]
      next hne2 =>
        simp only [Except.ok.injEq, Prod.mk.injEq] at h
        obtain ⟨ht, hcf⟩ := h
        subst ht
        subst hcf
        refine ⟨⟨rfl, rfl, rfl, rfl, rfl⟩, fun _ => rfl, ?_⟩
        intro a0 ha0
        rw [hpa] at ha0
        injection ha0 with ha0
        subst ha0
        rw [if_pos hcl]
        exact (not_not.mp hne2).symm
    next hcl =>
      split at h
      next hne2 =>
        simp only [Except.ok.injEq, Prod.mk.injEq] at h
        obtain ⟨ht, hcf⟩ := h
        subst ht
        subst hcf
        refine ⟨⟨rfl, rfl, rfl, rfl, rfl⟩, ?_, ?_⟩
        · intro h0
          rw [hpa] at h0
          cases h0
        · intro a0 ha0
          rw [hpa] at ha0
          injection ha0 with ha0
          subst ha0
          rw [if_neg hcl]
      next hne2 =>
        simp only [Except.ok.injEq, Prod.mk.injEq] at h
        obtain ⟨ht, hcf⟩ := h
        subst ht
        subst hcf
        refine ⟨⟨rfl, rfl, rfl, rfl, rfl⟩, fun _ => rfl, ?_⟩
        intro a0 ha0
        rw [hpa] at ha0
        injection ha0 with ha0
        subst ha0
        rw [if_neg hcl]
        exact (not_not.mp hne2).symm

theorem dueCompare_ok {DT : Type} {ops : DTOps DT} {t t' : Ticket DT}
    {cf cf' : List (String × Change)} {new_due : Option DT}
    (h : dueCompare ops t cf new_due = .ok (t', cf')) :
    (t'.id = t.id ∧ t'.status = t.status ∧ t'.priority = t.priority ∧
      t'.category = t.category ∧ t'.assignee = t.assignee) ∧
    t'.due_at.map ops.iso = new_due.map ops.iso := by
  unfold dueCompare at h
  dsimp only at h
  split at h
  next hne =>
    simp only [Except.ok.injEq, Prod.mk.injEq] at h
    obtain ⟨ht, hcf⟩ := h
    subst ht
    subst hcf
    exact ⟨⟨rfl, rfl, rfl, rfl, rfl⟩, rfl⟩
  next hne =>
    simp only [Except.ok.injEq, Prod.mk.injEq] at h
    obtain ⟨ht, hcf⟩ := h
    subst ht
    subst hcf
    exact ⟨⟨rfl, rfl, rfl, rfl, rfl⟩, (not_not.mp hne).symm⟩

theorem applyDueAt_ok {DT : Type} {ops : DTOps DT} {payload : TicketUpdate}
    {t t' : Ticket DT} {cf cf' : List (String × Change)}
    (h : applyDueAt ops payload t cf = .ok (t', cf')) :
    (t'.id = t.id ∧ t'.status = t.status ∧ t'.priority = t.priority ∧
      t'.category = t.category ∧ t'.assignee = t.assignee) ∧
    (payload.due_at = none → t'.due_at = t.due_at) ∧
    (∀ d, payload.due_at = some d →
      ((pyStrip d = "" ∧ t'.due_at = none) ∨
       (pyStrip d ≠ "" ∧ ∃ nd, ops.fromiso (pyReplace d "Z" "+00:00") = some nd ∧
          t'.due_at.map ops.iso = some (ops.iso nd)))) := by
  unfold applyDueAt at h
  split at h
  next hpd =>
    simp only [Except.ok.injEq, Prod.mk.injEq] at h
    obtain ⟨ht, hcf⟩ := h
    subst ht
    subst hcf
    simp [hpd]
  next d hpd =>
    split at h
    next htrim =>
      have hc := dueCompare_ok h
      refine ⟨hc.1, ?_, ?_⟩
      · intro h0
        rw [hpd] at h0
        cases h0
      · intro d0 hd0
        rw [hpd] at hd0
        injection hd0 with hd0
        subst hd0
        refine Or.inl ⟨htrim, ?_⟩
        simpa using hc.2
    next htrim =>
      split at h
      next nd hnd =>
        have hc := dueCompare_ok h
        refine ⟨hc.1, ?_, ?_⟩
        · intro h0
          rw [hpd] at h0
          cases h0
        · intro d0 hd0
          rw [hpd] at hd0
          injection hd0 with hd0
          subst hd0
          exact Or.inr ⟨htrim, nd, hnd, by simpa using hc.2⟩
      next hnd => exact absurd h (by simp)

theorem applyStatus_error {DT : Type} {payload : TicketUpdate} {t : Ticket DT}
    {cf : List (String × Change)} {e : HTTPError}
    (h : applyStatus payload t cf = .error e) : e.status_code = 400 := by
  unfold applyStatus at h
  repeat' split at h
  all_goals cases h
  all_goals rfl

theorem applyPriority_error {DT : Type} {payload : TicketUpdate} {t : Ticket DT}
    {cf : List (String × Change)} {e : HTTPError}
    (h : applyPriority payload t cf = .error e) : e.status_code = 400 := by
  unfold applyPriority at h
  repeat' split at h
  all_goals cases h
  all_goals rfl

theorem applyCategory_error {DT : Type} {payload : TicketUpdate} {t : Ticket DT}
    {cf : List (String × Change)} {e : HTTPError}
    (h : applyCategory payload t cf = .error e) : e.status_code = 400 := by
  unfold applyCategory at h
  repeat' split at h
  all_goals cases h
  all_goals rfl

theorem applyAssignee_error {DT : Type} {payload : TicketUpdate}
    {t : Ticket DT} {cf : List (String × Change)} {e : HTTPError}
    (h : applyAssignee payload t cf = .error e) : e.status_code = 400 := by
  unfold applyAssignee at h
  dsimp only at h
  repeat' split at h
  all_goals cases h

theorem applyDueAt_error {DT : Type} {ops : DTOps DT} {payload : TicketUpdate}
    {t : Ticket DT} {cf : List (String × Change)} {e : HTTPError}
    (h : applyDueAt ops payload t cf = .error e) : e.status_code = 400 := by
  unfold applyDueAt dueCompare at h
  dsimp only at h
  repeat' split at h
  all_goals cases h
  all_goals rfl

theorem applyFields_error_code {DT : Type} {ops : DTOps DT}
    {payload : TicketUpdate} {t : Ticket DT} {e : HTTPError}
    (h : applyFields ops payload t = .error e) : e.status_code = 400 := by
  unfold applyFields at h
  split at h
  next e1 heq =>
    simp only [Except.error.injEq] at h
    subst h
    exact applyStatus_error heq
  next t1 cf1 heq1 =>
    split at h
    next e1 heq =>
      simp only [Except.error.injEq] at h
      subst h
      exact applyPriority_error heq
    next t2 cf2 heq2 =>
      split at h
      next e1 heq =>
        simp only [Except.error.injEq] at h
        subst h
        exact applyCategory_error heq
      next t3 cf3 heq3 =>
        split at h
        next e1 heq =>
          simp only [Except.error.injEq] at h
          subst h
          exact applyAssignee_error heq
        next t4 cf4 heq4 =>
          exact applyDueAt_error h

theorem applyFields_bad_enum {DT : Type} (ops : DTOps DT)
    {payload : TicketUpdate} {t : Ticket DT}
    (hbad : (∃ s, payload.status = some s ∧ s ∉ ALLOWED_STATUS) ∨
            (∃ p, payload.priority = some p ∧ p ∉ ALLOWED_PRIORITY) ∨
            (∃ c, payload.category = some c ∧ c ∉ ALLOWED_CATEGORY)) :
    ∃ e, applyFields ops payload t = .error e := by
  rcases hbad with ⟨s, hs, hmem⟩ | ⟨p, hp, hmem⟩ | ⟨c, hc, hmem⟩
  · have h1 : applyStatus payload t [] =
        .error ⟨400, "Invalid status. Use open or closed."⟩ := by
      unfold applyStatus
      rw [hs]
      simp [hmem]
    exact ⟨⟨400, "Invalid status. Use open or closed."⟩,
      by simp only [applyFields, h1]⟩
  · rcases hA : applyStatus payload t [] with e1 | ⟨t1, cf1⟩
    · exact ⟨e1, by simp only [applyFields, hA]⟩
    · have h2 : applyPriority payload t1 cf1 =
          .error ⟨400, "Invalid priority. Use low, medium, or high."⟩ := by
        unfold applyPriority
        rw [hp]
        simp [hmem]
      exact ⟨⟨400, "Invalid priority. Use low, medium, or high."⟩,
        by simp only [applyFields, hA, h2]⟩
  · rcases hA : applyStatus payload t [] with e1 | ⟨t1, cf1⟩
    · exact ⟨e1, by simp only [applyFields, hA]⟩
    · rcases hB : applyPriority payload t1 cf1 with e1 | ⟨t2, cf2⟩
      · exact ⟨e1, by simp only [applyFields, hA, hB]⟩
      · have h3 : applyCategory payload t2 cf2 =
            .error ⟨400, "Invalid category. Use billing, login, refund, or other."⟩ := by
          unfold applyCategory
          rw [hc]
          simp [hmem]
        exact ⟨⟨400, "Invalid category. Use billing, login, refund, or other."⟩,
          by simp only [applyFields, hA, hB, h3]⟩

theorem applyStatus_noop {DT : Type} {payload : TicketUpdate} {t : Ticket DT}
    (cf : List (String × Change))
    (h : payload.status = none ∨
      (payload.status = some t.status ∧ t.status ∈ ALLOWED_STATUS)) :
    applyStatus payload t cf = .ok (t, cf) := by
  unfold applyStatus
  rcases h with h | ⟨h, hmem⟩
  · rw [h]
  · rw [h]
    simp [hmem]

theorem applyPriority_noop {DT : Type} {payload : TicketUpdate} {t : Ticket DT}
    (cf : List (String × Change))
    (h : payload.priority = none ∨
      (payload.priority = some t.priority ∧ t.priority ∈ ALLOWED_PRIORITY)) :
    applyPriority payload t cf = .ok (t, cf) := by
  unfold applyPriority
  rcases h with h | ⟨h, hmem⟩
  · rw [h]
  · rw [h]
    simp [hmem]

theorem applyCategory_noop {DT : Type} {payload : TicketUpdate} {t : Ticket DT}
    (cf : List (String × Change))
    (h : payload.category = none ∨
      (payload.category = some t.category ∧ t.category ∈ ALLOWED_CATEGORY)) :
    applyCategory payload t cf = .ok (t, cf) := by
  unfold applyCategory
  rcases h with h | ⟨h, hmem⟩
  · rw [h]
  · rw [h]
    simp [hmem]

theorem applyAssignee_noop {DT : Type} {payload : TicketUpdate} {t : Ticket DT}
    (cf : List (String × Change))
    (h : payload.assignee = none ∨ ∃ a, payload.assignee = some a ∧
      (if pyStrip a ≠ "" then some (pyStrip a) else none) = t.assignee) :
    applyAssignee payload t cf = .ok (t, cf) := by
  unfold applyAssignee
  rcases h with h | ⟨a, ha, heq⟩
  · rw [h]
  · rw [ha]
    dsimp only
    simp [heq]

theorem applyDueAt_noop {DT : Type} {ops : DTOps DT} {payload : TicketUpdate}
    {t : Ticket DT} (cf : List (String × Change))
    (h : payload.due_at = none ∨ ∃ d, payload.due_at = some d ∧
      ((pyStrip d = "" ∧ t.due_at = none) ∨
       (pyStrip d ≠ "" ∧ ∃ nd, ops.fromiso (pyReplace d "Z" "+00:00") = some nd ∧
          t.due_at.map ops.iso = some (ops.iso nd)))) :
    applyDueAt ops payload t cf = .ok (t, cf) := by
  unfold applyDueAt dueCompare
  rcases h with h | ⟨d, hd, hcase⟩
  · rw [h]
  · simp only [hd]
    rcases hcase with ⟨htrim, hnone⟩ | ⟨htrim, nd, hparse, hiso⟩
    · rw [if_pos htrim]
      simp [hnone]
    · rw [if_neg htrim, hparse]
      simp [hiso]

theorem update_ticket_ok_inv {DT : Type} {ops : DTOps DT} {db : DB DT}
    {ticket_id : Int} {payload : TicketUpdate} {user : User}
    {out : TicketOut} {commits : List (DB DT)}
    (h : update_ticket ops db ticket_id payload user = .ok (out, commits)) :
    ∃ t0 t cf, dbGet db ticket_id = some t0 ∧
      applyFields ops payload t0 = .ok (t, cf) ∧ out = ticket_to_out ops t ∧
      ((cf = [] ∧ commits = []) ∨
       (cf ≠ [] ∧ commits =
         [dbSetTicket db t,
          { dbSetTicket db t with audit := (dbSetTicket db t).audit ++
            [log_event t.id (actor_from_user user) "ticket.updated"
              (some (.updated cf (beforeSnapshot ops t0)))] }])) := by
  unfold update_ticket at h
  split at h
  · cases h
  next t0 hget =>
    dsimp only at h
    split at h
    · cases h
    next t cf hfields =>
      split at h
      next hcf =>
        simp only [Except.ok.injEq, Prod.mk.injEq] at h
        exact ⟨t0, t, cf, hget, hfields, h.1.symm, Or.inl ⟨hcf, h.2.symm⟩⟩
      next hcf =>
        simp only [Except.ok.injEq, Prod.mk.injEq] at h
        exact ⟨t0, t, cf, hget, hfields, h.1.symm, Or.inr ⟨hcf, h.2.symm⟩⟩

/-! ## C8: actor resolution -/

/-- C8: the actor resolver is a total function preferring a non-empty email
claim as `agent:<email>`, then a non-empty subject claim as `agent:<sub>`,
else `agent:unknown`. -/
theorem actor_resolution_cases (u : User) :
    (∀ e, u.email = some e → e ≠ "" → actor_from_user u = "agent:" ++ e) ∧
    ((u.email = none ∨ u.email = some "") →
      ∀ s, u.sub = some s → s ≠ "" → actor_from_user u = "agent:" ++ s) ∧
    ((u.email = none ∨ u.email = some "") → (u.sub = none ∨ u.sub = some "") →
      actor_from_user u = "agent:unknown") := by
  refine ⟨?_, ?_, ?_⟩
  · intro e he hne
    simp [actor_from_user, truthy, he, hne]
  · intro hem s hs hsne
    rcases hem with hem | hem <;> simp [actor_from_user, truthy, hem, hs, hsne]
  · intro hem hsub
    rcases hem with hem | hem <;> rcases hsub with hsub | hsub <;>
      simp [actor_from_user, truthy, hem, hsub]

theorem actor_resolution_cases_witness :
    actor_from_user { email := some "sam@example.com", sub := some "uid-1" } =
      "agent:sam@example.com" :=
  (actor_resolution_cases _).1 "sam@example.com" rfl (by decide)

/-! ## C10: unknown ticket id takes precedence over payload validation -/

/-- C10: a PATCH or message POST on an unknown ticket id fails with 404
`Ticket not found` for every payload — including payloads whose fields would
fail validation — and the store is unchanged. -/
theorem unknown_ticket_rejected_first {DT : Type} (ops : DTOps DT) (db : DB DT)
    (ticket_id : Int) (payload : TicketUpdate) (mpayload : MessageCreate)
    (user : User) (h : dbGet db ticket_id = none) :
    update_ticket ops db ticket_id payload user = .error ⟨404, "Ticket not found"⟩ ∧
    add_message db ticket_id mpayload user = .error ⟨404, "Ticket not found"⟩ ∧
    finalDB db (update_ticket ops db ticket_id payload user) = db ∧
    finalDB db (add_message db ticket_id mpayload user) = db := by
  refine ⟨?_, ?_, ?_, ?_⟩ <;> simp [update_ticket, add_message, finalDB, h]

theorem unknown_ticket_rejected_first_witness :
    update_ticket strOps db0 2 { priority := some "urgent" } u1 =
      .error ⟨404, "Ticket not found"⟩ ∧
    add_message db0 2 { body := "hello", sender_type := "bot" } u1 =
      .error ⟨404, "Ticket not found"⟩ := by
  have h : dbGet db0 2 = none := by decide
  exact ⟨(unknown_ticket_rejected_first strOps db0 2 { priority := some "urgent" }
            { body := "hello", sender_type := "bot" } u1 h).1,
         (unknown_ticket_rejected_first strOps db0 2 { priority := some "urgent" }
            { body := "hello", sender_type := "bot" } u1 h).2.1⟩

/-! ## C6: key-cache lookup contract (spec-modelled) -/

/-- C6: a lookup hitting a fresh populated cache answers with zero network
fetches and an unchanged cache; otherwise exactly one refetch is performed,
and if the key id is still absent from the fetched collection the lookup
fails with `KeyNotFound`. -/
theorem key_cache_contract (fetch : Option (List String)) (now : Nat)
    (c : KeyCache) (kid : String) :
    (cacheHit now c kid = true → resolve_key fetch now c kid = ⟨.ok kid, c, 0⟩) ∧
    (cacheHit now c kid = false → (resolve_key fetch now c kid).fetches = 1) ∧
    (cacheHit now c kid = false → ∀ ks, fetch = some ks → kid ∉ ks →
      (resolve_key fetch now c kid).result = .error .KeyNotFound) := by
  refine ⟨fun h => by simp [resolve_key, h], fun h => ?_, fun h ks hf hk => ?_⟩
  · rcases fetch with _ | ks
    · simp [resolve_key, h]
    · simp only [resolve_key, h, Bool.false_eq_true, if_false]
      split <;> rfl
  · subst hf
    simp [resolve_key, h, hk]

theorem key_cache_contract_witness :
    resolve_key (some ["kid-b"]) 300 ⟨some (["kid-a"], 0)⟩ "kid-a" =
      ⟨.ok "kid-a", ⟨some (["kid-a"], 0)⟩, 0⟩ ∧
    (resolve_key (some ["kid-b"]) 300 ⟨some (["kid-a"], 0)⟩ "kid-c").fetches = 1 ∧
    (resolve_key (some ["kid-b"]) 300 ⟨some (["kid-a"], 0)⟩ "kid-c").result =
      .error .KeyNotFound := by
  refine ⟨(key_cache_contract _ _ _ _).1 (by decide),
          (key_cache_contract (some ["kid-b"]) 300 _ "kid-c").2.1 (by decide),
          (key_cache_contract (some ["kid-b"]) 300 _ "kid-c").2.2 (by decide)
            ["kid-b"] rfl (by decide)⟩

/-! ## C1 and C2: counterexample runs -/

/-- C1 is false as stated: on a successful mutating PATCH (resp. message
creation) the handler commits twice, and the first committed snapshot already
holds the entity mutation (status `closed`; resp. the stored message) while
holding zero audit entries — the mutation and its audit entry are not
persisted atomically in one transaction. -/
theorem mutation_commit_precedes_audit_commit :
    (commitsOf (update_ticket strOps db0 1 payClose u1)).map
        (fun d => (d.audit.length, (dbGet d 1).map Ticket.status)) =
      [(0, some "closed"), (1, some "closed")] ∧
    (commitsOf (add_message db0 1 { body := "hello" } u1)).map
        (fun d => (d.audit.length, d.messages.length)) =
      [(0, 1), (1, 1)] := by
  exact ⟨rfl, rfl⟩

/-- C2 is false as stated: with `status := "closed"` (valid, differing)
listed before `priority := "urgent"` (invalid), the PATCH fails with the
priority error, but the status block — which runs first — has already
mutated the in-memory ticket and recorded the status diff before the
priority validation raises. -/
theorem enum_validation_interleaved_with_mutation :
    update_ticket strOps db0 1 payBadPriority u1 =
      .error ⟨400, "Invalid priority. Use low, medium, or high."⟩ ∧
    applyStatus payBadPriority tick0 [] =
      .ok ({ tick0 with status := "closed" },
        [("status", ⟨some "open", some "closed"⟩)]) ∧
    applyPriority payBadPriority { tick0 with status := "closed" }
        [("status", ⟨some "open", some "closed"⟩)] =
      .error ⟨400, "Invalid priority. Use low, medium, or high."⟩ := by
  exact ⟨rfl, rfl, rfl⟩

/-! ## C3: counterexample and actual algorithm handling -/

/-- C3 is false as stated: a token whose header declares `HS256` — an
algorithm outside the issuer's asymmetric set — is not rejected with an
`unsupported algorithm` error; the declared algorithm is passed to the
library verifier and, when that accepts, verification succeeds. -/
theorem client_declared_alg_accepted :
    verify_supabase_jwt envHS = .ok u1 ∧ "HS256" ∉ ["ES256", "RS256"] := by
  exact ⟨rfl, by decide⟩

/-- C3 (amended): the verifier checks only that the header declares a
non-empty algorithm (else `Invalid auth token (missing alg)`); the declared
algorithm is handed unchecked to the library decode, whose acceptance decides
the outcome, and no failure carries an `unsupported algorithm` reason. -/
theorem alg_passed_through_unchecked (env : TokenEnv) :
    (∀ hdr key u, env.unverified_header = .ok hdr → truthy hdr.alg = true →
      env.signing_key = .ok key → env.decode key (hdr.alg.getD "") = .ok u →
      verify_supabase_jwt env = .ok u) ∧
    (∀ e, verify_supabase_jwt env = .error e →
      e.detail ≠ "unsupported algorithm") := by
  constructor
  · intro hdr key u h1 h2 h3 h4
    simp [verify_supabase_jwt, h1, h2, h3, h4]
  · intro e he
    unfold verify_supabase_jwt at he
    split at he
    · simp only [Except.error.injEq] at he
      subst he
      exact invalid_detail_ne _ _ (by decide)
    · split at he
      · simp only [Except.error.injEq] at he
        subst he
        decide
      · split at he
        · simp only [Except.error.injEq] at he
          subst he
          exact invalid_detail_ne _ _ (by decide)
        · split at he
          · cases he
          · simp only [Except.error.injEq] at he
            subst he
            decide
          · simp only [Except.error.injEq] at he
            subst he
            exact invalid_detail_ne _ _ (by decide)

theorem alg_passed_through_unchecked_witness :
    verify_supabase_jwt envHS = .ok u1 :=
  (alg_passed_through_unchecked envHS).1 ⟨some "HS256"⟩ "jwk-public-key" u1
    rfl (by decide) rfl rfl

/-! ## C9: message audit preview -/

/-- C9: the audit row written for a stored message carries the message's
sender_type and a `body_preview` equal to exactly the first 80 characters of
the stored (trimmed) body — never the full body once it exceeds 80
characters. -/
theorem message_audit_body_preview {DT : Type} (db : DB DT) (ticket_id : Int)
    (payload : MessageCreate) (user : User) (m : MessageRow)
    (commits : List (DB DT))
    (h : add_message db ticket_id payload user = .ok (m, commits)) :
    m.body = pyStrip payload.body ∧ m.sender_type = payload.sender_type ∧
    ∃ c1 row, commits = [c1, { c1 with audit := c1.audit ++ [row] }] ∧
      row.meta = some (.messageAdded payload.sender_type
        (pyTake (pyStrip payload.body) 80)) ∧
      (80 < (pyStrip payload.body).length →
        pyTake (pyStrip payload.body) 80 ≠ pyStrip payload.body) := by
  unfold add_message at h
  rcases hget : dbGet db ticket_id with _ | t <;> rw [hget] at h
  · cases h
  · by_cases hs : payload.sender_type ∈ ALLOWED_SENDER
    case neg => simp [hs] at h
    case pos =>
      simp only [hs, not_true_eq_false, if_false, Except.ok.injEq, Prod.mk.injEq] at h
      obtain ⟨hm, hc⟩ := h
      subst hm
      subst hc
      refine ⟨rfl, rfl, _, _, rfl, ?_, pyTake_ne_of_lt _⟩
      by_cases hb : pyStrip payload.body = ""
      · simp [hb, pyTake, log_event]
      · simp [hb, log_event]

/-- A stored 100-character body whose preview must truncate. -/
def longBody : String := String.mk (List.replicate 100 'a')

theorem message_audit_body_preview_witness :
    pyTake (pyStrip longBody) 80 ≠ pyStrip longBody := by
  obtain ⟨-, -, c1, row, -, -, hlen⟩ :=
    message_audit_body_preview db0 1 { body := longBody } u1 _ _ rfl
  exact hlen (by decide)

/-! ## C7: expiry is reported distinctly -/

/-- C7: a failing token verification reports `Auth token expired` exactly
when the failure cause is an expired signature on an otherwise well-formed
bearer request; every other failure (missing header/token, bad format,
missing alg, key failure, bad signature, wrong issuer) carries a different
reason string. -/
theorem token_expiry_reason_distinct (authorization : Option String)
    (env : TokenEnv) (e : HTTPError)
    (h : get_current_user authorization env = .error e) :
    e.detail = "Auth token expired" ↔
      truthy authorization = true ∧
      pyStartsWith (authorization.getD "") "Bearer " = true ∧
      pyStrip (pyDrop (authorization.getD "") 7) ≠ "" ∧
      ∃ hdr key, env.unverified_header = .ok hdr ∧ truthy hdr.alg = true ∧
        env.signing_key = .ok key ∧
        env.decode key (hdr.alg.getD "") = .expiredSignature := by
  unfold get_current_user at h
  split at h
  next hA =>
    simp only [Except.error.injEq] at h
    subst h
    refine iff_of_false (by decide) ?_
    rintro ⟨h1, -, -, -⟩
    exact hA h1
  next hA =>
    split at h
    next hB =>
      simp only [Except.error.injEq] at h
      subst h
      refine iff_of_false (by decide) ?_
      rintro ⟨-, h2, -, -⟩
      exact hB h2
    next hB =>
      split at h
      next hC =>
        simp only [Except.error.injEq] at h
        subst h
        refine iff_of_false (by decide) ?_
        rintro ⟨-, -, h3, -⟩
        exact h3 hC
      next hC =>
        have hA' : truthy authorization = true := not_not.mp hA
        have hB' : pyStartsWith (authorization.getD "") "Bearer " = true :=
          not_not.mp hB
        unfold verify_supabase_jwt at h
        split at h
        next m heq =>
          simp only [Except.error.injEq] at h
          subst h
          refine iff_of_false (invalid_detail_ne _ _ (by decide)) ?_
          rintro ⟨-, -, -, hdr, key, hh, -⟩
          rw [heq] at hh
          cases hh
        next hdr heq =>
          split at h
          next halg =>
            simp only [Except.error.injEq] at h
            subst h
            refine iff_of_false (by decide) ?_
            rintro ⟨-, -, -, hdr2, key, hh, halg2, -⟩
            rw [heq] at hh
            cases hh
            exact halg halg2
          next halg =>
            split at h
            next m heq2 =>
              simp only [Except.error.injEq] at h
              subst h
              refine iff_of_false (invalid_detail_ne _ _ (by decide)) ?_
              rintro ⟨-, -, -, hdr2, key, hh, -, hkey, -⟩
              rw [heq] at hh
              cases hh
              rw [heq2] at hkey
              cases hkey
            next key heq2 =>
              split at h
              next u hdec => cases h
              next hdec =>
                simp only [Except.error.injEq] at h
                subst h
                exact iff_of_true rfl
                  ⟨hA', hB', hC, hdr, key, heq, not_not.mp halg, heq2, hdec⟩
              next m hdec =>
                simp only [Except.error.injEq] at h
                subst h
                refine iff_of_false (invalid_detail_ne _ _ (by decide)) ?_
                rintro ⟨-, -, -, hdr2, key2, hh, -, hkey, hdec2⟩
                rw [heq] at hh
                cases hh
                rw [heq2] at hkey
                cases hkey
                rw [hdec] at hdec2
                cases hdec2

theorem token_expiry_reason_distinct_witness :
    (HTTPError.mk 401 "Auth token expired").detail = "Auth token expired" ↔
      truthy (some "Bearer tok") = true ∧
      pyStartsWith ((some "Bearer tok" : Option String).getD "") "Bearer " = true ∧
      (pyStrip (pyDrop ((some "Bearer tok" : Option String).getD "") 7) ≠ "") ∧
      ∃ hdr key, envExpired.unverified_header = .ok hdr ∧
        truthy hdr.alg = true ∧ envExpired.signing_key = .ok key ∧
        envExpired.decode key (hdr.alg.getD "") = .expiredSignature :=
  token_expiry_reason_distinct (some "Bearer tok") envExpired _ rfl

/-! ## C1 (amended): one audit row per mutation, committed separately -/

/-- C1 (amended): a mutating PATCH produces exactly one `ticket.updated`
audit row and a no-op PATCH produces none, and a message creation produces
exactly one `message.added` audit row — but mutation and audit row are
committed in two successive transactions, the first of which persists the
entity change with no audit row. -/
theorem audit_two_phase_commit {DT : Type} (ops : DTOps DT) (db : DB DT)
    (ticket_id : Int) (payload : TicketUpdate) (mpayload : MessageCreate)
    (user : User) :
    (∀ out commits,
      update_ticket ops db ticket_id payload user = .ok (out, commits) →
      commits = [] ∨
      ∃ c1 row, commits = [c1, { c1 with audit := c1.audit ++ [row] }] ∧
        c1.audit = db.audit ∧ row.action = "ticket.updated") ∧
    (∀ m commits, add_message db ticket_id mpayload user = .ok (m, commits) →
      ∃ c1 row, commits = [c1, { c1 with audit := c1.audit ++ [row] }] ∧
        c1.audit = db.audit ∧ c1.messages = db.messages ++ [m] ∧
        row.action = "message.added") := by
  constructor
  · intro out commits h
    obtain ⟨t0, t, cf, -, -, -, hsh⟩ := update_ticket_ok_inv h
    rcases hsh with ⟨-, hc⟩ | ⟨-, hc⟩
    · exact Or.inl hc
    · exact Or.inr ⟨dbSetTicket db t, _, hc, rfl, rfl⟩
  · intro m commits h
    unfold add_message at h
    split at h
    · cases h
    next t hget =>
      split at h
      · cases h
      next hsend =>
        dsimp only at h
        simp only [Except.ok.injEq, Prod.mk.injEq] at h
        obtain ⟨hm, hc⟩ := h
        subst hm
        exact ⟨_, _, hc.symm, rfl, rfl, rfl⟩

theorem audit_two_phase_commit_witness :
    ∃ c1 row,
      commitsOf (update_ticket strOps db0 1 payClose u1) =
        [c1, { c1 with audit := c1.audit ++ [row] }] ∧
      c1.audit = db0.audit ∧ row.action = "ticket.updated" := by
  have h := (audit_two_phase_commit strOps db0 1 payClose
    { body := "hello" } u1).1 _ _ rfl
  rcases h with h | h
  · exact absurd h (by decide)
  · exact h

/-! ## C2 (amended): invalid enum rejects the whole update, nothing persists -/

/-- C2 (amended): a PATCH providing an out-of-range enum value for status,
priority or category fails with HTTP 400, nothing is committed, and
re-fetching the ticket returns its unchanged state — although the in-memory
processing order interleaves validation with mutation (see the
counterexample), the rejected transaction is never committed. -/
theorem invalid_enum_rejects_whole_update {DT : Type} (ops : DTOps DT)
    (db : DB DT) (ticket_id : Int) (payload : TicketUpdate) (user : User)
    (t : Ticket DT) (ht : dbGet db ticket_id = some t)
    (hbad : (∃ s, payload.status = some s ∧ s ∉ ALLOWED_STATUS) ∨
            (∃ p, payload.priority = some p ∧ p ∉ ALLOWED_PRIORITY) ∨
            (∃ c, payload.category = some c ∧ c ∉ ALLOWED_CATEGORY)) :
    ∃ e, update_ticket ops db ticket_id payload user = .error e ∧
      e.status_code = 400 ∧
      finalDB db (update_ticket ops db ticket_id payload user) = db ∧
      dbGet (finalDB db (update_ticket ops db ticket_id payload user))
        ticket_id = some t := by
  obtain ⟨e, he⟩ := applyFields_bad_enum ops (t := t) hbad
  have hu : update_ticket ops db ticket_id payload user = .error e := by
    simp only [update_ticket, ht, he]
  refine ⟨e, hu, applyFields_error_code he, ?_, ?_⟩
  · simp [finalDB, hu]
  · simp [finalDB, hu, ht]

theorem invalid_enum_rejects_whole_update_witness :
    finalDB db0 (update_ticket strOps db0 1 payBadPriority u1) = db0 ∧
    dbGet (finalDB db0 (update_ticket strOps db0 1 payBadPriority u1)) 1 =
      some tick0 := by
  obtain ⟨e, -, -, hfin, hget⟩ :=
    invalid_enum_rejects_whole_update strOps db0 1 payBadPriority u1 tick0
      (by decide) (Or.inr (Or.inl ⟨"urgent", rfl, by decide⟩))
  exact ⟨hfin, hget⟩

/-! ## C4: no-op updates commit nothing and audit nothing -/

/-- C4: a PATCH of an existing ticket whose provided fields all equal the
ticket's current values after normalization (trim, empty-clears-to-absent,
timestamp parse and ISO comparison) computes an empty diff, performs no
commit, creates no audit entry, and leaves the visible ticket state
unchanged. -/
theorem noop_update_no_audit_no_commit {DT : Type} (ops : DTOps DT)
    (db : DB DT) (ticket_id : Int) (payload : TicketUpdate) (user : User)
    (t : Ticket DT) (ht : dbGet db ticket_id = some t)
    (hstat : t.status ∈ ALLOWED_STATUS)
    (hprio : t.priority ∈ ALLOWED_PRIORITY)
    (hcat : t.category ∈ ALLOWED_CATEGORY)
    (hs : payload.status = none ∨ payload.status = some t.status)
    (hp : payload.priority = none ∨ payload.priority = some t.priority)
    (hc : payload.category = none ∨ payload.category = some t.category)
    (ha : payload.assignee = none ∨ ∃ a, payload.assignee = some a ∧
      (if pyStrip a ≠ "" then some (pyStrip a) else none) = t.assignee)
    (hd : payload.due_at = none ∨ ∃ d, payload.due_at = some d ∧
      ((pyStrip d = "" ∧ t.due_at = none) ∨
       (pyStrip d ≠ "" ∧ ∃ nd, ops.fromiso (pyReplace d "Z" "+00:00") = some nd ∧
          t.due_at.map ops.iso = some (ops.iso nd)))) :
    update_ticket ops db ticket_id payload user =
      .ok (ticket_to_out ops t, []) ∧
    finalDB db (update_ticket ops db ticket_id payload user) = db := by
  have e1 : applyStatus payload t [] = .ok (t, []) :=
    applyStatus_noop [] (hs.imp id fun h => ⟨h, hstat⟩)
  have e2 : applyPriority payload t [] = .ok (t, []) :=
    applyPriority_noop [] (hp.imp id fun h => ⟨h, hprio⟩)
  have e3 : applyCategory payload t [] = .ok (t, []) :=
    applyCategory_noop [] (hc.imp id fun h => ⟨h, hcat⟩)
  have e4 : applyAssignee payload t [] = .ok (t, []) := applyAssignee_noop [] ha
  have e5 : applyDueAt ops payload t [] = .ok (t, []) := applyDueAt_noop [] hd
  have hf : applyFields ops payload t = .ok (t, []) := by
    simp only [applyFields, e1, e2, e3, e4, e5]
  have hu : update_ticket ops db ticket_id payload user =
      .ok (ticket_to_out ops t, []) := by
    simp [update_ticket, ht, hf]
  exact ⟨hu, by simp [finalDB, hu]⟩

/-- A PATCH repeating `tick0`'s current values (with whitespace assignee and
empty due_at, both of which normalize to absent). -/
def payNoop : TicketUpdate :=
  { status := some "open", priority := some "medium", category := some "other",
    assignee := some "  ", due_at := some "" }

theorem noop_update_no_audit_no_commit_witness :
    update_ticket strOps db0 1 payNoop u1 =
      .ok (ticket_to_out strOps tick0, []) :=
  (noop_update_no_audit_no_commit strOps db0 1 payNoop u1 tick0 (by decide)
    (by decide) (by decide) (by decide)
    (Or.inr rfl) (Or.inr rfl) (Or.inr rfl)
    (Or.inr ⟨"  ", rfl, by decide⟩)
    (Or.inr ⟨"", rfl, Or.inl ⟨by decide, rfl⟩⟩)).1

/-! ## C5: applying the same PATCH twice -/

theorem applyFields_ok {DT : Type} {ops : DTOps DT} {payload : TicketUpdate}
    {t0 t : Ticket DT} {cf : List (String × Change)}
    (h : applyFields ops payload t0 = .ok (t, cf)) :
    t.id = t0.id ∧
    (payload.status = none ∨
      (payload.status = some t.status ∧ t.status ∈ ALLOWED_STATUS)) ∧
    (payload.priority = none ∨
      (payload.priority = some t.priority ∧ t.priority ∈ ALLOWED_PRIORITY)) ∧
    (payload.category = none ∨
      (payload.category = some t.category ∧ t.category ∈ ALLOWED_CATEGORY)) ∧
    (payload.assignee = none ∨ ∃ a, payload.assignee = some a ∧
      (if pyStrip a ≠ "" then some (pyStrip a) else none) = t.assignee) ∧
    (payload.due_at = none ∨ ∃ d, payload.due_at = some d ∧
      ((pyStrip d = "" ∧ t.due_at = none) ∨
       (pyStrip d ≠ "" ∧ ∃ nd, ops.fromiso (pyReplace d "Z" "+00:00") = some nd ∧
          t.due_at.map ops.iso = some (ops.iso nd)))) := by
  unfold applyFields at h
  split at h
  · cases h
  next t1 cf1 h1 =>
    split at h
    · cases h
    next t2 cf2 h2 =>
      split at h
      · cases h
      next t3 cf3 h3 =>
        split at h
        · cases h
        next t4 cf4 h4 =>
          obtain ⟨p1, s1none, s1some⟩ := applyStatus_ok h1
          obtain ⟨p2, s2none, s2some⟩ := applyPriority_ok h2
          obtain ⟨p3, s3none, s3some⟩ := applyCategory_ok h3
          obtain ⟨p4, s4none, s4some⟩ := applyAssignee_ok h4
          obtain ⟨p5, s5none, s5some⟩ := applyDueAt_ok h
          refine ⟨?_, ?_, ?_, ?_, ?_, ?_⟩
          · rw [p5.1, p4.1, p3.1, p2.1, p1.1]
          · rcases hps : payload.status with _ | s
            · exact Or.inl rfl
            · obtain ⟨hset, hmem⟩ := s1some s hps
              have hts : t.status = s := by
                rw [p5.2.1, p4.2.1, p3.2.1, p2.2.1, hset]
              refine Or.inr ⟨?_, ?_⟩
              · rw [hts]
              · rw [hts]
                exact hmem
          · rcases hps : payload.priority with _ | s
            · exact Or.inl rfl
            · obtain ⟨hset, hmem⟩ := s2some s hps
              have hts : t.priority = s := by
                rw [p5.2.2.1, p4.2.2.1, p3.2.2.1, hset]
              refine Or.inr ⟨?_, ?_⟩
              · rw [hts]
              · rw [hts]
                exact hmem
          · rcases hps : payload.category with _ | s
            · exact Or.inl rfl
            · obtain ⟨hset, hmem⟩ := s3some s hps
              have hts : t.category = s := by
                rw [p5.2.2.2.1, p4.2.2.2.1, hset]
              refine Or.inr ⟨?_, ?_⟩
              · rw [hts]
              · rw [hts]
                exact hmem
          · rcases hps : payload.assignee with _ | a
            · exact Or.inl rfl
            · have hset := s4some a hps
              have hts : t.assignee =
                  (if pyStrip a ≠ "" then some (pyStrip a) else none) := by
                rw [p5.2.2.2.2, hset]
              exact Or.inr ⟨a, rfl, hts.symm⟩
          · rcases hps : payload.due_at with _ | d
            · exact Or.inl rfl
            · exact Or.inr ⟨d, rfl, s5some d hps⟩

theorem find?_replace {DT : Type} (l : List (Ticket DT)) (i : Int)
    (t0 t : Ticket DT) (hid : t.id = t0.id)
    (h : l.find? (fun u => u.id == i) = some t0) :
    (l.map (fun u => if u.id == t.id then t else u)).find?
      (fun u => u.id == i) = some t := by
  have ht0 : t0.id = i := by
    have := List.find?_some h
    simpa using this
  induction l with
  | nil => simp at h
  | cons x xs ih =>
    rw [List.map_cons]
    by_cases hx : x.id = i
    · rw [List.find?_cons_of_pos _ (by simpa using hx)] at h
      injection h with h
      subst h
      have hcond : (x.id == t.id) = true := by
        simp [hid]
      rw [if_pos hcond]
      exact List.find?_cons_of_pos _ (by simpa using hid.trans ht0)
    · rw [List.find?_cons_of_neg _ (by simpa using hx)] at h
      have hxt : ¬(x.id == t.id) = true := by
        simp only [beq_iff_eq]
        rw [hid, ht0]
        exact hx
      rw [if_neg hxt]
      rw [List.find?_cons_of_neg _ (by simpa using hx)]
      exact ih h

/-- C5: if a PATCH succeeds, it appends exactly one audit row when it changed
at least one field (none otherwise), and re-applying the identical payload to
the resulting state succeeds with an empty diff: no commit and no further
audit row. -/
theorem patch_idempotent {DT : Type} (ops : DTOps DT) (db : DB DT)
    (ticket_id : Int) (payload : TicketUpdate) (user : User)
    (out1 : TicketOut) (commits1 : List (DB DT))
    (h1 : update_ticket ops db ticket_id payload user = .ok (out1, commits1)) :
    ((commits1 = [] ∧
        finalDB db (update_ticket ops db ticket_id payload user) = db) ∨
      ∃ row, (finalDB db (update_ticket ops db ticket_id payload user)).audit =
        db.audit ++ [row]) ∧
    ∃ out2, update_ticket ops
      (finalDB db (update_ticket ops db ticket_id payload user))
      ticket_id payload user = .ok (out2, []) := by
  obtain ⟨t0, t, cf, hget, hfields, hout, hsh⟩ := update_ticket_ok_inv h1
  obtain ⟨hid, cs, cp, cc, ca, cd⟩ := applyFields_ok hfields
  rcases hsh with ⟨hcf, hcommits⟩ | ⟨hcf, hcommits⟩
  · subst hcommits
    have hfin : finalDB db (update_ticket ops db ticket_id payload user) = db := by
      rw [h1]
      rfl
    refine ⟨Or.inl ⟨rfl, hfin⟩, out1, ?_⟩
    rw [hfin]
    exact h1
  · subst hcommits
    have hfin : finalDB db (update_ticket ops db ticket_id payload user) =
        { dbSetTicket db t with audit := (dbSetTicket db t).audit ++
          [log_event t.id (actor_from_user user) "ticket.updated"
            (some (.updated cf (beforeSnapshot ops t0)))] } := by
      rw [h1]
      rfl
    rw [hfin]
    constructor
    · exact Or.inr ⟨_, rfl⟩
    · have hget2 : dbGet ({ dbSetTicket db t with audit :=
          (dbSetTicket db t).audit ++
          [log_event t.id (actor_from_user user) "ticket.updated"
            (some (.updated cf (beforeSnapshot ops t0)))] }) ticket_id =
          some t := by
        unfold dbGet dbSetTicket
        dsimp only
        exact find?_replace db.tickets ticket_id t0 t hid hget
      have e1 : applyStatus payload t [] = .ok (t, []) := applyStatus_noop [] cs
      have e2 : applyPriority payload t [] = .ok (t, []) :=
        applyPriority_noop [] cp
      have e3 : applyCategory payload t [] = .ok (t, []) :=
        applyCategory_noop [] cc
      have e4 : applyAssignee payload t [] = .ok (t, []) :=
        applyAssignee_noop [] ca
      have e5 : applyDueAt ops payload t [] = .ok (t, []) := applyDueAt_noop [] cd
      have hf2 : applyFields ops payload t = .ok (t, []) := by
        simp only [applyFields, e1, e2, e3, e4, e5]
      exact ⟨ticket_to_out ops t, by simp [update_ticket, hget2, hf2]⟩

theorem patch_idempotent_witness :
    ∃ out2, update_ticket strOps
      (finalDB db0 (update_ticket strOps db0 1 payClose u1)) 1 payClose u1 =
      .ok (out2, []) :=
  (patch_idempotent strOps db0 1 payClose u1 _ _ rfl).2
